import Mathlib

/-!
Shallow embedding of the `TrafficEnforcementV2` Solidity contract
(src/hardhat.config.cjs, second document): the permissioned traffic
enforcement ledger — roles, officer directory, offense catalog, the
violation/appeal lifecycle, rate limiting, pause control, and the
pull-payment refund queue.

Modelling conventions:
* `address` is `Nat` (0 is the zero address, `msg.sender` is an explicit
  `caller` argument, `block.timestamp` an explicit `now` argument).
* Solidity mappings are total functions returning the zero-initialized
  struct, exactly as EVM storage does; "violation exists" is the source's
  `violations[id].timestamp != 0` check.
* `keccak256(abi.encodePacked(vehicleId, msg.sender, block.timestamp,
  offenseCode))` is modelled as the injective quadruple itself (`VId`):
  equal inputs give equal identifiers, which is all the development needs.
* Each entry point is an explicit `State → ... → Except Err State`
  function; an `Except.error` models `revert`, so a failing call leaves
  state unchanged by construction, matching EVM transaction semantics.
* `require` conditions are translated in the source's execution order
  (modifiers in declaration order, then body requires). Error constructors
  follow the spec's taxonomy (§7).
* Solidity 0.8 checked arithmetic: the one multiplication whose overflow
  revert is observable (`fineAmountKES * KES_TO_WEI_RATE`) carries an
  explicit bound check; the monotone `Nat` counters cannot wrap.
* String length bounds use `String.length`; all source strings are ASCII,
  where this coincides with Solidity's `bytes(s).length`.
-/

-- ============================================================================
-- Constants (source lines 74-89)
-- ============================================================================

def MAX_VIOLATIONS_PER_DAY : Nat := 100

def MAX_APPEALS_PER_VIOLATION : Nat := 3

/-- APPEAL_COOLDOWN = 7 days, in seconds. -/
def APPEAL_COOLDOWN : Nat := 7 * 86400

/-- KES_TO_WEI_RATE = 1e15 (source line 82). -/
def KES_TO_WEI_RATE : Nat := 10 ^ 15

def MAX_STRING_LENGTH : Nat := 500

def MAX_VEHICLE_ID_LENGTH : Nat := 20

def MAX_BADGE_LENGTH : Nat := 50

/-- Upper bound of uint256; Solidity 0.8 checked arithmetic reverts at it. -/
def UINT256_BOUND : Nat := 2 ^ 256

/-- Solidity `1 days` in seconds. -/
def SECONDS_PER_DAY : Nat := 86400

-- ============================================================================
-- Enums and structs
-- ============================================================================

/-- The six role identifiers of the contract plus OpenZeppelin's
DEFAULT_ADMIN_ROLE (the role admin of every role here, since the contract
never calls _setRoleAdmin). -/
inductive Role where
  | DefaultAdmin
  | Admin
  | OfficerManager
  | Officer
  | Judge
  | Treasury
  | Upgrader
deriving DecidableEq

/-- ViolationStatus (source lines 95-102); Unpaid = 0 is the storage default. -/
inductive ViolationStatus where
  | Unpaid
  | Paid
  | Appealed
  | Waived
  | Rejected
  | Refunded
deriving DecidableEq

/-- Error taxonomy from spec §7; each `require` is mapped to one constructor. -/
inductive Err where
  | Unauthorized
  | NotFound
  | InvalidState
  | InvalidInput
  | RateLimited
  | Paused
  | TransferFailed
deriving DecidableEq

/-- Violation identifier: keccak256(abi.encodePacked(vehicleId, msg.sender,
block.timestamp, offenseCode)) modelled as the injective input quadruple. -/
structure VId where
  vehicleId : String
  officer : Nat
  timestamp : Nat
  offenseCode : Nat
deriving DecidableEq

/-- Violation struct (source lines 112-124). -/
structure Violation where
  violationId : VId
  vehicleId : String
  officerId : Nat
  offenseCode : Nat
  evidenceHash : String
  timestamp : Nat
  fineAmount : Nat
  status : ViolationStatus
  driverId : Nat
  paidAmount : Nat
  paidBy : Nat
deriving DecidableEq

/-- Officer struct (source lines 129-137). -/
structure Officer where
  officerId : Nat
  name : String
  badgeNumber : String
  isActive : Bool
  registrationTime : Nat
  dailyViolationCount : Nat
  lastViolationDate : Nat
deriving DecidableEq

/-- Appeal struct (source lines 142-153). -/
structure Appeal where
  violationId : VId
  appellant : Nat
  appealReason : String
  appealTime : Nat
  resolved : Bool
  approved : Bool
  resolution : String
  resolvedBy : Nat
  appealCount : Nat
  lastAppealTime : Nat
deriving DecidableEq

/-- Offense struct (source lines 158-162): fineAmountKES, name, isActive. -/
structure Offense where
  fineAmountKES : Nat
  name : String
  isActive : Bool
deriving DecidableEq

/-- Zero-initialized structs: the default value of every EVM storage slot. -/
def emptyViolation : Violation :=
  ⟨⟨"", 0, 0, 0⟩, "", 0, 0, "", 0, 0, ViolationStatus.Unpaid, 0, 0, 0⟩

def emptyOfficer : Officer := ⟨0, "", "", false, 0, 0, 0⟩

def emptyAppeal : Appeal := ⟨⟨"", 0, 0, 0⟩, 0, "", 0, false, false, "", 0, 0, 0⟩

def emptyOffense : Offense := ⟨0, "", false⟩

-- ============================================================================
-- Contract state (source lines 171-197)
-- ============================================================================

structure State where
  roles : Role → Nat → Bool
  violations : VId → Violation
  officers : Nat → Officer
  vehicleViolations : String → List VId
  appeals : VId → Appeal
  offenses : Nat → Offense
  totalViolations : Nat
  totalFinesPaid : Nat
  totalFinesRefunded : Nat
  officerDailyViolations : Nat → Nat → Nat
  pendingRefunds : Nat → Nat
  paused : Bool
  balance : Nat

/-- Grant a role: point update of the role map (OpenZeppelin _grantRole). -/
def grantR (m : Role → Nat → Bool) (r : Role) (p : Nat) : Role → Nat → Bool :=
  fun r0 p0 => if r0 = r ∧ p0 = p then true else m r0 p0

/-- Revoke a role (OpenZeppelin _revokeRole). -/
def revokeR (m : Role → Nat → Bool) (r : Role) (p : Nat) : Role → Nat → Bool :=
  fun r0 p0 => if r0 = r ∧ p0 = p then false else m r0 p0

/-- The violation identifier computation of logViolation (source line 518). -/
def violationIdOf (veh : String) (c now code : Nat) : VId := ⟨veh, c, now, code⟩

-- ============================================================================
-- Entry points
-- ============================================================================

/-- registerOfficer (source lines 416-450). Modifier order: onlyRole
(OFFICER_MANAGER_ROLE), validAddress, validString(name, 500),
validString(badge, 50), whenNotPaused; body: require not active, then
reactivate or create. -/
def registerOfficer (s : State) (c oid : Nat) (nm badge : String) (now : Nat) :
    Except Err State :=
  if s.roles Role.OfficerManager c = false then .error .Unauthorized
  else if oid = 0 then .error .InvalidInput
  else if nm.length = 0 ∨ MAX_STRING_LENGTH < nm.length then .error .InvalidInput
  else if badge.length = 0 ∨ MAX_BADGE_LENGTH < badge.length then .error .InvalidInput
  else if s.paused then .error .Paused
  else if (s.officers oid).isActive then .error .InvalidState
  else if 0 < (s.officers oid).registrationTime then
    .ok { s with
      officers := fun a => if a = oid then { s.officers oid with isActive := true }
        else s.officers a,
      roles := grantR s.roles Role.Officer oid }
  else
    .ok { s with
      officers := fun a => if a = oid then ⟨oid, nm, badge, true, now, 0, 0⟩
        else s.officers a,
      roles := grantR s.roles Role.Officer oid }

/-- deactivateOfficer (source lines 456-467). -/
def deactivateOfficer (s : State) (c oid : Nat) : Except Err State :=
  if s.roles Role.OfficerManager c = false then .error .Unauthorized
  else if s.paused then .error .Paused
  else if (s.officers oid).isActive = false then .error .InvalidState
  else
    .ok { s with
      officers := fun a => if a = oid then { s.officers oid with isActive := false }
        else s.officers a,
      roles := revokeR s.roles Role.Officer oid }

/-- The per-officer daily counter update in logViolation's body (source
lines 508-513): reset count and day marker when the day changed, then
increment. -/
def bumpDaily (o : Officer) (today : Nat) : Officer :=
  if o.lastViolationDate ≠ today then
    { o with dailyViolationCount := 0 + 1, lastViolationDate := today }
  else
    { o with dailyViolationCount := o.dailyViolationCount + 1 }

/-- logViolation (source lines 490-542). Modifier order: onlyRole
(OFFICER_ROLE), rateLimited (reads officerDailyViolations — which no code
path ever increments), validString(vehicleId, 20), validString(evidence,
500), validAddress(driver), whenNotPaused; body: require active offense,
bump the per-officer daily counter, compute the fine, write the violation
record at the derived identifier (no collision check: an existing record
at the same identifier is overwritten), push the vehicle index, increment
totalViolations. -/
def logViolation (s : State) (c : Nat) (veh : String) (code : Nat) (ev : String)
    (drv now : Nat) : Except Err State :=
  if s.roles Role.Officer c = false then .error .Unauthorized
  else if MAX_VIOLATIONS_PER_DAY ≤ s.officerDailyViolations c (now / SECONDS_PER_DAY) then
    .error .RateLimited
  else if veh.length = 0 ∨ MAX_VEHICLE_ID_LENGTH < veh.length then .error .InvalidInput
  else if ev.length = 0 ∨ MAX_STRING_LENGTH < ev.length then .error .InvalidInput
  else if drv = 0 then .error .InvalidInput
  else if s.paused then .error .Paused
  else if (s.offenses code).isActive = false then .error .InvalidInput
  else if UINT256_BOUND ≤ (s.offenses code).fineAmountKES * KES_TO_WEI_RATE then
    .error .InvalidInput
  else
    .ok { s with
      officers := fun a => if a = c then bumpDaily (s.officers c) (now / SECONDS_PER_DAY)
        else s.officers a,
      violations := fun w => if w = violationIdOf veh c now code then
          ⟨violationIdOf veh c now code, veh, c, code, ev, now,
            (s.offenses code).fineAmountKES * KES_TO_WEI_RATE,
            ViolationStatus.Unpaid, drv, 0, 0⟩
        else s.violations w,
      vehicleViolations := fun v0 => if v0 = veh then
          s.vehicleViolations veh ++ [violationIdOf veh c now code]
        else s.vehicleViolations v0,
      totalViolations := s.totalViolations + 1 }

/-- getViolation (source lines 549-556): pure read with existence check. -/
def getViolation (s : State) (vid : VId) : Except Err Violation :=
  if (s.violations vid).timestamp = 0 then .error .NotFound
  else .ok (s.violations vid)

/-- payFine (source lines 597-623). Modifier order: nonReentrant (operations
are atomic here), violationExists, whenNotPaused; body: require Unpaid,
require value ≥ fine; set Paid/paidAmount/paidBy, add to totalFinesPaid;
the contract keeps the fine and returns the excess, so its balance grows
by exactly the fine amount. -/
def payFine (s : State) (c : Nat) (vid : VId) (value : Nat) : Except Err State :=
  if (s.violations vid).timestamp = 0 then .error .NotFound
  else if s.paused then .error .Paused
  else if ¬((s.violations vid).status = ViolationStatus.Unpaid) then .error .InvalidState
  else if value < (s.violations vid).fineAmount then .error .InvalidInput
  else
    .ok { s with
      violations := fun w => if w = vid then
          { s.violations vid with
            status := ViolationStatus.Paid,
            paidAmount := (s.violations vid).fineAmount,
            paidBy := c }
        else s.violations w,
      totalFinesPaid := s.totalFinesPaid + (s.violations vid).fineAmount,
      balance := s.balance + (s.violations vid).fineAmount }

/-- submitAppeal (source lines 634-673). Modifiers: violationExists,
whenNotPaused; body requires in order: status Unpaid or Paid, caller is
the driver, reason non-empty, previous appeal not resolved, appeal count
below the maximum, cooldown elapsed when a prior appeal exists; then sets
status Appealed and rewrites the appeal record (resolvedBy keeps its old
value — the source does not reset it). -/
def submitAppeal (s : State) (c : Nat) (vid : VId) (reason : String) (now : Nat) :
    Except Err State :=
  if (s.violations vid).timestamp = 0 then .error .NotFound
  else if s.paused then .error .Paused
  else if ¬((s.violations vid).status = ViolationStatus.Unpaid ∨
            (s.violations vid).status = ViolationStatus.Paid) then .error .InvalidState
  else if ¬(c = (s.violations vid).driverId) then .error .Unauthorized
  else if reason.length = 0 then .error .InvalidInput
  else if (s.appeals vid).resolved then .error .InvalidState
  else if MAX_APPEALS_PER_VIOLATION ≤ (s.appeals vid).appealCount then .error .InvalidState
  else if 0 < (s.appeals vid).appealCount ∧
          now < (s.appeals vid).lastAppealTime + APPEAL_COOLDOWN then .error .InvalidState
  else
    .ok { s with
      violations := fun w => if w = vid then
          { s.violations vid with status := ViolationStatus.Appealed }
        else s.violations w,
      appeals := fun w => if w = vid then
          ⟨vid, c, reason, now, false, false, "", (s.appeals vid).resolvedBy,
            (s.appeals vid).appealCount + 1, now⟩
        else s.appeals w }

/-- resolveAppeal (source lines 681-721). Modifiers: onlyRole(JUDGE_ROLE),
violationExists, whenNotPaused; body: require status Appealed, require
appeal unresolved; mark resolved/approved/resolution/resolvedBy; then the
four-way branch: approve and paidAmount>0 gives Refunded plus a pending
refund credit to the payer and a totalFinesRefunded bump; approve and
paidAmount=0 gives Waived; reject and paidAmount>0 gives Paid; reject and
paidAmount=0 gives Rejected. -/
def resolveAppeal (s : State) (c : Nat) (vid : VId) (approve : Bool) (res : String) :
    Except Err State :=
  if s.roles Role.Judge c = false then .error .Unauthorized
  else if (s.violations vid).timestamp = 0 then .error .NotFound
  else if s.paused then .error .Paused
  else if ¬((s.violations vid).status = ViolationStatus.Appealed) then .error .InvalidState
  else if (s.appeals vid).resolved then .error .InvalidState
  else
    .ok { s with
      appeals := fun w => if w = vid then
          { s.appeals vid with
            resolved := true,
            approved := approve,
            resolution := res,
            resolvedBy := c }
        else s.appeals w,
      violations := fun w => if w = vid then
          { s.violations vid with status :=
              if approve then
                (if 0 < (s.violations vid).paidAmount then ViolationStatus.Refunded
                 else ViolationStatus.Waived)
              else
                (if 0 < (s.violations vid).paidAmount then ViolationStatus.Paid
                 else ViolationStatus.Rejected) }
        else s.violations w,
      pendingRefunds := fun p =>
        if approve = true ∧ 0 < (s.violations vid).paidAmount then
          (if p = (s.violations vid).paidBy then
             s.pendingRefunds p + (s.violations vid).paidAmount
           else s.pendingRefunds p)
        else s.pendingRefunds p,
      totalFinesRefunded :=
        if approve = true ∧ 0 < (s.violations vid).paidAmount then
          s.totalFinesRefunded + (s.violations vid).paidAmount
        else s.totalFinesRefunded }

/-- claimRefund (source lines 726-736). Modifiers: nonReentrant,
whenNotPaused; body: require positive pending balance, zero it, transfer
the amount (the outbound call reverts the whole operation when the
contract balance cannot cover it). -/
def claimRefund (s : State) (c : Nat) : Except Err State :=
  if s.paused then .error .Paused
  else if s.pendingRefunds c = 0 then .error .InvalidInput
  else if s.balance < s.pendingRefunds c then .error .TransferFailed
  else
    .ok { s with
      pendingRefunds := fun p => if p = c then 0 else s.pendingRefunds p,
      balance := s.balance - s.pendingRefunds c }

/-- updateOffense (source lines 749-762): onlyRole(ADMIN_ROLE) only — the
source has no whenNotPaused modifier here. -/
def updateOffense (s : State) (c code kes : Nat) (nm : String) (act : Bool) :
    Except Err State :=
  if s.roles Role.Admin c = false then .error .Unauthorized
  else
    .ok { s with offenses := fun k => if k = code then ⟨kes, nm, act⟩ else s.offenses k }

/-- withdrawFunds (source lines 769-781): onlyRole(TREASURY_ROLE) and
nonReentrant only — no whenNotPaused modifier in the source. -/
def withdrawFunds (s : State) (c recip amt : Nat) : Except Err State :=
  if s.roles Role.Treasury c = false then .error .Unauthorized
  else if s.balance < amt then .error .InvalidInput
  else if recip = 0 then .error .InvalidInput
  else .ok { s with balance := s.balance - amt }

/-- pause (source lines 786-788); OpenZeppelin _pause reverts when already
paused. -/
def pauseOp (s : State) (c : Nat) : Except Err State :=
  if s.roles Role.Admin c = false then .error .Unauthorized
  else if s.paused then .error .Paused
  else .ok { s with paused := true }

/-- unpause (source lines 793-795); OpenZeppelin _unpause reverts when not
paused. -/
def unpauseOp (s : State) (c : Nat) : Except Err State :=
  if s.roles Role.Admin c = false then .error .Unauthorized
  else if s.paused = false then .error .InvalidState
  else .ok { s with paused := false }

/-- AccessControl grantRole: only the role admin (DEFAULT_ADMIN_ROLE for
every role in this contract) may grant. -/
def grantRoleOp (s : State) (c : Nat) (r : Role) (p : Nat) : Except Err State :=
  if s.roles Role.DefaultAdmin c = false then .error .Unauthorized
  else .ok { s with roles := grantR s.roles r p }

/-- AccessControl revokeRole. -/
def revokeRoleOp (s : State) (c : Nat) (r : Role) (p : Nat) : Except Err State :=
  if s.roles Role.DefaultAdmin c = false then .error .Unauthorized
  else .ok { s with roles := revokeR s.roles r p }

/-- receive()/fallback(): plain value deposit into the contract. -/
def depositOp (s : State) (amt : Nat) : Except Err State :=
  .ok { s with balance := s.balance + amt }

-- ============================================================================
-- Operation alphabet and execution
-- ============================================================================

/-- One external call to the contract, with its caller and arguments. -/
inductive Op where
  | registerOfficer (c oid : Nat) (nm badge : String) (now : Nat)
  | deactivateOfficer (c oid : Nat)
  | logViolation (c : Nat) (veh : String) (code : Nat) (ev : String) (drv now : Nat)
  | payFine (c : Nat) (vid : VId) (value : Nat)
  | submitAppeal (c : Nat) (vid : VId) (reason : String) (now : Nat)
  | resolveAppeal (c : Nat) (vid : VId) (approve : Bool) (res : String)
  | claimRefund (c : Nat)
  | updateOffense (c code kes : Nat) (nm : String) (act : Bool)
  | withdrawFunds (c recip amt : Nat)
  | pause (c : Nat)
  | unpause (c : Nat)
  | grantRole (c : Nat) (r : Role) (p : Nat)
  | revokeRole (c : Nat) (r : Role) (p : Nat)
  | deposit (amt : Nat)

/-- Dispatch one operation. -/
def step (s : State) (op : Op) : Except Err State :=
  match op with
  | .registerOfficer c oid nm badge now => registerOfficer s c oid nm badge now
  | .deactivateOfficer c oid => deactivateOfficer s c oid
  | .logViolation c veh code ev drv now => logViolation s c veh code ev drv now
  | .payFine c vid value => payFine s c vid value
  | .submitAppeal c vid reason now => submitAppeal s c vid reason now
  | .resolveAppeal c vid approve res => resolveAppeal s c vid approve res
  | .claimRefund c => claimRefund s c
  | .updateOffense c code kes nm act => updateOffense s c code kes nm act
  | .withdrawFunds c recip amt => withdrawFunds s c recip amt
  | .pause c => pauseOp s c
  | .unpause c => unpauseOp s c
  | .grantRole c r p => grantRoleOp s c r p
  | .revokeRole c r p => revokeRoleOp s c r p
  | .deposit amt => depositOp s amt

/-- Transaction semantics: a failed call reverts, leaving state unchanged. -/
def afterOp (s : State) (op : Op) : State :=
  match step s op with
  | .ok s2 => s2
  | .error _ => s

/-- Run a sequence of calls; failed calls revert and the rest continue. -/
def run (s : State) : List Op → State
  | [] => s
  | op :: ops => run (afterOp s op) ops

def isOkE (r : Except Err State) : Bool :=
  match r with
  | .ok _ => true
  | .error _ => false

def isRateLimitedErr (r : Except Err State) : Bool :=
  match r with
  | .error Err.RateLimited => true
  | _ => false

-- ============================================================================
-- Initial state (initialize + _initializeOffenses, source lines 281-404)
-- ============================================================================

/-- The 15 pre-seeded offense definitions (source lines 310-404). -/
def initialOffenses : Nat → Offense := fun code =>
  match code with
  | 1 => ⟨0, "Speeding 1-5 kph over limit (Warning)", true⟩
  | 2 => ⟨500, "Speeding 6-10 kph over limit", true⟩
  | 3 => ⟨3000, "Speeding 11-15 kph over limit", true⟩
  | 4 => ⟨10000, "Speeding 16-20 kph over limit", true⟩
  | 5 => ⟨500, "Failure to wear seatbelt", true⟩
  | 6 => ⟨3000, "Driving without valid license", true⟩
  | 7 => ⟨3000, "Failure to obey traffic signs", true⟩
  | 8 => ⟨5000, "Failure to stop when signaled by police", true⟩
  | 9 => ⟨10000, "Causing obstruction with vehicle", true⟩
  | 10 => ⟨5000, "Driving on pavement or pedestrian walkway", true⟩
  | 11 => ⟨10000, "Driving without identification plates", true⟩
  | 12 => ⟨1000, "Motorcycle carrying more than one pillion passenger", true⟩
  | 13 => ⟨3000, "Touting", true⟩
  | 14 => ⟨2000, "Using mobile phone while driving", true⟩
  | 15 => ⟨10000, "Driving without valid inspection certificate", true⟩
  | _ => emptyOffense

/-- The roles granted by initialize to the bootstrap admin: all of
DEFAULT_ADMIN, ADMIN, OFFICER_MANAGER, JUDGE, TREASURY, UPGRADER — but not
OFFICER (source lines 288-293). -/
def initRoles (admin : Nat) : Role → Nat → Bool := fun r p =>
  decide (p = admin) &&
    (match r with
     | Role.Officer => false
     | _ => true)

/-- The state right after initialize(1): bootstrap admin is principal 1. -/
def initialState : State where
  roles := initRoles 1
  violations := fun _ => emptyViolation
  officers := fun _ => emptyOfficer
  vehicleViolations := fun _ => []
  appeals := fun _ => emptyAppeal
  offenses := initialOffenses
  totalViolations := 0
  totalFinesPaid := 0
  totalFinesRefunded := 0
  officerDailyViolations := fun _ _ => 0
  pendingRefunds := fun _ => 0
  paused := false
  balance := 0

-- ============================================================================
-- Concrete scenario (witness material): admin 1 registers officer 2, who
-- logs a violation for vehicle "KAA1" under offense 4 (10000 KES) naming
-- driver 3; the fine is 10^19 ledger units.
-- ============================================================================

def demoRegister : Op := Op.registerOfficer 1 2 "Alice" "B-1" 100

def demoLog : Op := Op.logViolation 2 "KAA1" 4 "Qm1" 3 864000

def demoV : VId := ⟨"KAA1", 2, 864000, 4⟩

def demoPay : Op := Op.payFine 3 demoV (10 ^ 19)

def demoAppeal : Op := Op.submitAppeal 3 demoV "contested" 864000

def demoResolve : Op := Op.resolveAppeal 1 demoV true "granted"

/-- State with the violation logged and Unpaid. -/
def demoS2 : State := run initialState [demoRegister, demoLog]

/-- State with the fine paid by the driver. -/
def demoS3 : State := run initialState [demoRegister, demoLog, demoPay]

/-- State with the paid violation under appeal. -/
def demoS4 : State := run initialState [demoRegister, demoLog, demoPay, demoAppeal]

/-- State with the appeal approved: violation Refunded, refund queued. -/
def demoS5 : State :=
  run initialState [demoRegister, demoLog, demoPay, demoAppeal, demoResolve]

/-- State where the never-paid violation was appealed and the appeal
rejected: status Rejected with paidAmount 0. -/
def demoRejected : State :=
  run initialState [demoRegister, demoLog, demoAppeal, Op.resolveAppeal 1 demoV false "denied"]

/-- Paused state: the bootstrap admin paused the fresh contract. -/
def demoPaused : State := run initialState [Op.pause 1]

-- ============================================================================
-- Derived definitions used by the theorems
-- ============================================================================

/-- The error (if any) of a call result; decidable to compare, since the
state itself carries functions. -/
def errE (r : Except Err State) : Option Err :=
  match r with
  | .ok _ => none
  | .error e => some e

/-- State with only the officer registered. -/
def demoS1 : State := run initialState [demoRegister]

/-- The paid state and refunded state reached when outsider 7, not the
responsible driver 3, pays the demo fine. -/
def demoT3 : State := run initialState [demoRegister, demoLog, Op.payFine 7 demoV (10 ^ 19)]

def demoT4 : State :=
  run initialState [demoRegister, demoLog, Op.payFine 7 demoV (10 ^ 19), demoAppeal]

/-- Spec invariant I2 as a predicate on states. -/
def PaidStatusInv (s : State) : Prop :=
  ∀ v, 0 < (s.violations v).paidAmount →
    (s.violations v).status = ViolationStatus.Paid ∨
    (s.violations v).status = ViolationStatus.Appealed ∨
    (s.violations v).status = ViolationStatus.Refunded

/-- Does this operation call resolveAppeal on this violation? -/
def targetsResolve (op : Op) (v : VId) : Bool :=
  match op with
  | Op.resolveAppeal _ vid _ _ => decide (vid = v)
  | _ => false

/-- A refund-queue credit event on behalf of violation v: a successful
resolveAppeal call on v that moved the total-fines-refunded counter (the
counter moves exactly when the queue is credited, by the refund branch). -/
def isCreditB (s : State) (op : Op) (v : VId) : Bool :=
  isOkE (step s op) && targetsResolve op v &&
    decide ((afterOp s op).totalFinesRefunded ≠ s.totalFinesRefunded)

/-- Number of credit events on behalf of v along a run. -/
def creditsTo (v : VId) : State → List Op → Nat
  | _, [] => 0
  | s, op :: ops =>
    (if isCreditB s op v then 1 else 0) + creditsTo v (afterOp s op) ops

-- ============================================================================
-- Basic execution lemmas
-- ============================================================================

theorem afterOp_ok {s : State} {op : Op} {s2 : State} (h : step s op = .ok s2) :
    afterOp s op = s2 := by simp [afterOp, h]

theorem afterOp_err {s : State} {op : Op} {e : Err} (h : step s op = .error e) :
    afterOp s op = s := by simp [afterOp, h]

theorem run_cons (s : State) (op : Op) (ops : List Op) :
    run s (op :: ops) = run (afterOp s op) ops := rfl

theorem run_singleton (s : State) (op : Op) : run s [op] = afterOp s op := rfl


-- ============================================================================
-- Success inversion lemmas: what each entry point leaves untouched
-- ============================================================================

theorem registerOfficer_ok {s : State} {c oid : Nat} {nm badge : String} {now : Nat}
    {s2 : State} (h : registerOfficer s c oid nm badge now = .ok s2) :
    s2.violations = s.violations ∧ s2.appeals = s.appeals ∧
    s2.totalFinesRefunded = s.totalFinesRefunded ∧
    s2.officerDailyViolations = s.officerDailyViolations := by
  unfold registerOfficer at h
  iterate 6 (split at h; case isTrue => exact Except.noConfusion h)
  split at h <;> (injection h with h2; subst h2; exact ⟨rfl, rfl, rfl, rfl⟩)

theorem deactivateOfficer_ok {s : State} {c oid : Nat} {s2 : State}
    (h : deactivateOfficer s c oid = .ok s2) :
    s2.violations = s.violations ∧ s2.appeals = s.appeals ∧
    s2.totalFinesRefunded = s.totalFinesRefunded ∧
    s2.officerDailyViolations = s.officerDailyViolations := by
  unfold deactivateOfficer at h
  iterate 3 (split at h; case isTrue => exact Except.noConfusion h)
  injection h with h2; subst h2; exact ⟨rfl, rfl, rfl, rfl⟩

theorem claimRefund_ok {s : State} {c : Nat} {s2 : State}
    (h : claimRefund s c = .ok s2) :
    s2.violations = s.violations ∧ s2.appeals = s.appeals ∧
    s2.totalFinesRefunded = s.totalFinesRefunded ∧
    s2.officerDailyViolations = s.officerDailyViolations ∧
    s2.pendingRefunds c = 0 ∧
    s2.balance = s.balance - s.pendingRefunds c ∧
    s2.paused = s.paused := by
  unfold claimRefund at h
  iterate 3 (split at h; case isTrue => exact Except.noConfusion h)
  injection h with h2; subst h2
  refine ⟨rfl, rfl, rfl, rfl, by simp, rfl, rfl⟩

theorem updateOffense_ok {s : State} {c code kes : Nat} {nm : String} {act : Bool}
    {s2 : State} (h : updateOffense s c code kes nm act = .ok s2) :
    s2.violations = s.violations ∧ s2.appeals = s.appeals ∧
    s2.totalFinesRefunded = s.totalFinesRefunded ∧
    s2.officerDailyViolations = s.officerDailyViolations := by
  unfold updateOffense at h
  iterate 1 (split at h; case isTrue => exact Except.noConfusion h)
  injection h with h2; subst h2; exact ⟨rfl, rfl, rfl, rfl⟩

theorem withdrawFunds_ok {s : State} {c recip amt : Nat} {s2 : State}
    (h : withdrawFunds s c recip amt = .ok s2) :
    s2.violations = s.violations ∧ s2.appeals = s.appeals ∧
    s2.totalFinesRefunded = s.totalFinesRefunded ∧
    s2.officerDailyViolations = s.officerDailyViolations := by
  unfold withdrawFunds at h
  iterate 3 (split at h; case isTrue => exact Except.noConfusion h)
  injection h with h2; subst h2; exact ⟨rfl, rfl, rfl, rfl⟩

theorem pauseOp_ok {s : State} {c : Nat} {s2 : State}
    (h : pauseOp s c = .ok s2) :
    s2.violations = s.violations ∧ s2.appeals = s.appeals ∧
    s2.totalFinesRefunded = s.totalFinesRefunded ∧
    s2.officerDailyViolations = s.officerDailyViolations := by
  unfold pauseOp at h
  iterate 2 (split at h; case isTrue => exact Except.noConfusion h)
  injection h with h2; subst h2; exact ⟨rfl, rfl, rfl, rfl⟩

theorem unpauseOp_ok {s : State} {c : Nat} {s2 : State}
    (h : unpauseOp s c = .ok s2) :
    s2.violations = s.violations ∧ s2.appeals = s.appeals ∧
    s2.totalFinesRefunded = s.totalFinesRefunded ∧
    s2.officerDailyViolations = s.officerDailyViolations := by
  unfold unpauseOp at h
  iterate 2 (split at h; case isTrue => exact Except.noConfusion h)
  injection h with h2; subst h2; exact ⟨rfl, rfl, rfl, rfl⟩

theorem grantRoleOp_ok {s : State} {c : Nat} {r : Role} {p : Nat} {s2 : State}
    (h : grantRoleOp s c r p = .ok s2) :
    s2.violations = s.violations ∧ s2.appeals = s.appeals ∧
    s2.totalFinesRefunded = s.totalFinesRefunded ∧
    s2.officerDailyViolations = s.officerDailyViolations := by
  unfold grantRoleOp at h
  iterate 1 (split at h; case isTrue => exact Except.noConfusion h)
  injection h with h2; subst h2; exact ⟨rfl, rfl, rfl, rfl⟩

theorem revokeRoleOp_ok {s : State} {c : Nat} {r : Role} {p : Nat} {s2 : State}
    (h : revokeRoleOp s c r p = .ok s2) :
    s2.violations = s.violations ∧ s2.appeals = s.appeals ∧
    s2.totalFinesRefunded = s.totalFinesRefunded ∧
    s2.officerDailyViolations = s.officerDailyViolations := by
  unfold revokeRoleOp at h
  iterate 1 (split at h; case isTrue => exact Except.noConfusion h)
  injection h with h2; subst h2; exact ⟨rfl, rfl, rfl, rfl⟩

theorem depositOp_ok {s : State} {amt : Nat} {s2 : State}
    (h : depositOp s amt = .ok s2) :
    s2.violations = s.violations ∧ s2.appeals = s.appeals ∧
    s2.totalFinesRefunded = s.totalFinesRefunded ∧
    s2.officerDailyViolations = s.officerDailyViolations := by
  unfold depositOp at h
  injection h with h2; subst h2; exact ⟨rfl, rfl, rfl, rfl⟩

theorem logViolation_ok {s : State} {c : Nat} {veh : String} {code : Nat}
    {ev : String} {drv now : Nat} {s2 : State}
    (h : logViolation s c veh code ev drv now = .ok s2) :
    s2.appeals = s.appeals ∧
    s2.totalFinesRefunded = s.totalFinesRefunded ∧
    s2.officerDailyViolations = s.officerDailyViolations ∧
    (∀ w, w ≠ violationIdOf veh c now code → s2.violations w = s.violations w) ∧
    s2.violations (violationIdOf veh c now code) =
      ⟨violationIdOf veh c now code, veh, c, code, ev, now,
        (s.offenses code).fineAmountKES * KES_TO_WEI_RATE,
        ViolationStatus.Unpaid, drv, 0, 0⟩ ∧
    s2.totalViolations = s.totalViolations + 1 ∧
    s2.vehicleViolations veh = s.vehicleViolations veh ++ [violationIdOf veh c now code] := by
  unfold logViolation at h
  repeat (split at h; case isTrue => exact Except.noConfusion h)
  injection h with h2
  subst h2
  refine ⟨rfl, rfl, rfl, ?_, ?_, rfl, ?_⟩
  · intro w hw
    simp [hw]
  · simp
  · simp

theorem payFine_ok {s : State} {c : Nat} {vid : VId} {value : Nat} {s2 : State}
    (h : payFine s c vid value = .ok s2) :
    s2.appeals = s.appeals ∧
    s2.totalFinesRefunded = s.totalFinesRefunded ∧
    s2.officerDailyViolations = s.officerDailyViolations ∧
    (∀ w, w ≠ vid → s2.violations w = s.violations w) ∧
    (s2.violations vid).status = ViolationStatus.Paid ∧
    (s2.violations vid).paidAmount = (s.violations vid).fineAmount ∧
    (s2.violations vid).paidBy = c ∧
    s2.totalFinesPaid = s.totalFinesPaid + (s.violations vid).fineAmount ∧
    s2.balance = s.balance + (s.violations vid).fineAmount := by
  unfold payFine at h
  repeat (split at h; case isTrue => exact Except.noConfusion h)
  injection h with h2
  subst h2
  refine ⟨rfl, rfl, rfl, ?_, ?_, ?_, ?_, rfl, rfl⟩
  · intro w hw
    simp [hw]
  · simp
  · simp
  · simp

theorem submitAppeal_ok {s : State} {c : Nat} {vid : VId} {reason : String}
    {now : Nat} {s2 : State} (h : submitAppeal s c vid reason now = .ok s2) :
    (s.appeals vid).resolved = false ∧
    s2.totalFinesRefunded = s.totalFinesRefunded ∧
    s2.officerDailyViolations = s.officerDailyViolations ∧
    (∀ w, w ≠ vid → s2.violations w = s.violations w ∧ s2.appeals w = s.appeals w) ∧
    (s2.violations vid).status = ViolationStatus.Appealed ∧
    (s2.appeals vid).resolved = false := by
  have hres : (s.appeals vid).resolved = false := by
    by_contra hr
    rw [Bool.not_eq_false] at hr
    unfold submitAppeal at h
    repeat (split at h; case isTrue => exact Except.noConfusion h)
    exact Except.noConfusion h
  unfold submitAppeal at h
  repeat (split at h; case isTrue => exact Except.noConfusion h)
  injection h with h2
  subst h2
  refine ⟨hres, rfl, rfl, ?_, ?_, ?_⟩
  · intro w hw
    constructor <;> simp [hw]
  · simp
  · simp

theorem resolveAppeal_ok {s : State} {c : Nat} {vid : VId} {approve : Bool}
    {res : String} {s2 : State} (h : resolveAppeal s c vid approve res = .ok s2) :
    (s.violations vid).status = ViolationStatus.Appealed ∧
    (s.appeals vid).resolved = false ∧
    s2.officerDailyViolations = s.officerDailyViolations ∧
    (∀ w, w ≠ vid → s2.violations w = s.violations w ∧ s2.appeals w = s.appeals w) ∧
    s2.appeals vid = { s.appeals vid with
      resolved := true, approved := approve, resolution := res, resolvedBy := c } ∧
    (s2.violations vid).paidAmount = (s.violations vid).paidAmount ∧
    (s2.violations vid).status =
      (if approve then
        (if 0 < (s.violations vid).paidAmount then ViolationStatus.Refunded
         else ViolationStatus.Waived)
       else
        (if 0 < (s.violations vid).paidAmount then ViolationStatus.Paid
         else ViolationStatus.Rejected)) ∧
    s2.totalFinesRefunded =
      (if approve = true ∧ 0 < (s.violations vid).paidAmount then
        s.totalFinesRefunded + (s.violations vid).paidAmount
       else s.totalFinesRefunded) ∧
    (approve = true → 0 < (s.violations vid).paidAmount →
      s2.pendingRefunds ((s.violations vid).paidBy) =
        s.pendingRefunds ((s.violations vid).paidBy) + (s.violations vid).paidAmount) := by
  have hstat : (s.violations vid).status = ViolationStatus.Appealed := by
    by_contra hr
    unfold resolveAppeal at h
    repeat (split at h; case isTrue => exact Except.noConfusion h)
    exact Except.noConfusion h
  have hres : (s.appeals vid).resolved = false := by
    by_contra hr
    rw [Bool.not_eq_false] at hr
    unfold resolveAppeal at h
    repeat (split at h; case isTrue => exact Except.noConfusion h)
    exact Except.noConfusion h
  unfold resolveAppeal at h
  repeat (split at h; case isTrue => exact Except.noConfusion h)
  injection h with h2
  subst h2
  refine ⟨hstat, hres, rfl, ?_, ?_, ?_, ?_, rfl, ?_⟩
  · intro w hw
    constructor <;> simp [hw]
  · simp
  · simp
  · simp
  · intro ha hp
    simp [ha, hp]

-- ============================================================================
-- The day-indexed guard counter is never written
-- ============================================================================

/-- No entry point ever writes the day-indexed `officerDailyViolations`
counter that the rateLimited guard reads; the issuance path increments the
per-officer record fields instead. -/
theorem step_dailyMap {s : State} {op : Op} {s2 : State} (h : step s op = .ok s2) :
    s2.officerDailyViolations = s.officerDailyViolations := by
  cases op
  case registerOfficer c oid nm badge now => exact (registerOfficer_ok h).2.2.2
  case deactivateOfficer c oid => exact (deactivateOfficer_ok h).2.2.2
  case logViolation c veh code ev drv now => exact (logViolation_ok h).2.2.1
  case payFine c vid value => exact (payFine_ok h).2.2.1
  case submitAppeal c vid reason now => exact (submitAppeal_ok h).2.2.1
  case resolveAppeal c vid approve res => exact (resolveAppeal_ok h).2.2.1
  case claimRefund c => exact (claimRefund_ok h).2.2.2.1
  case updateOffense c code kes nm act => exact (updateOffense_ok h).2.2.2
  case withdrawFunds c recip amt => exact (withdrawFunds_ok h).2.2.2
  case pause c => exact (pauseOp_ok h).2.2.2
  case unpause c => exact (unpauseOp_ok h).2.2.2
  case grantRole c r p => exact (grantRoleOp_ok h).2.2.2
  case revokeRole c r p => exact (revokeRoleOp_ok h).2.2.2
  case deposit amt => exact (depositOp_ok h).2.2.2

theorem afterOp_dailyMap (s : State) (op : Op) :
    (afterOp s op).officerDailyViolations = s.officerDailyViolations := by
  cases h : step s op with
  | ok s2 => rw [afterOp_ok h]; exact step_dailyMap h
  | error e => rw [afterOp_err h]

theorem run_dailyMap (s : State) (ops : List Op) :
    (run s ops).officerDailyViolations = s.officerDailyViolations := by
  induction ops generalizing s with
  | nil => rfl
  | cons op ops ih => rw [run_cons, ih, afterOp_dailyMap]

/-- Claim C1: in every state reachable from the initial state by any
sequence of operations, logViolation never fails with RateLimited: the
rateLimited guard reads the day-indexed counter `officerDailyViolations`,
which no code path ever increments, so the daily ceiling is unenforced —
contradicting the claim that the 101st same-day issuance is rejected with
RateLimited. -/
theorem rate_limit_never_triggers (ops : List Op) (c : Nat) (veh : String)
    (code : Nat) (ev : String) (drv now : Nat) :
    isRateLimitedErr (logViolation (run initialState ops) c veh code ev drv now)
      = false := by
  have h0 : (run initialState ops).officerDailyViolations c (now / SECONDS_PER_DAY)
      = 0 := by
    rw [run_dailyMap]
    rfl
  unfold logViolation
  split
  next => rfl
  split
  next hrl => rw [h0] at hrl; exact absurd hrl (by decide)
  iterate 6 (split; next => rfl)
  rfl

-- ============================================================================
-- Pause gating
-- ============================================================================

theorem registerOfficer_paused {s : State} (hp : s.paused = true) (c oid : Nat)
    (nm badge : String) (now : Nat) :
    isOkE (registerOfficer s c oid nm badge now) = false := by
  unfold registerOfficer
  repeat (split; next => rfl)
  rfl

theorem deactivateOfficer_paused {s : State} (hp : s.paused = true) (c oid : Nat) :
    isOkE (deactivateOfficer s c oid) = false := by
  unfold deactivateOfficer
  repeat (split; next => rfl)
  rfl

theorem logViolation_paused {s : State} (hp : s.paused = true) (c : Nat)
    (veh : String) (code : Nat) (ev : String) (drv now : Nat) :
    isOkE (logViolation s c veh code ev drv now) = false := by
  unfold logViolation
  repeat (split; next => rfl)
  rfl

theorem payFine_paused {s : State} (hp : s.paused = true) (c : Nat) (vid : VId)
    (value : Nat) :
    isOkE (payFine s c vid value) = false := by
  unfold payFine
  repeat (split; next => rfl)
  rfl

theorem submitAppeal_paused {s : State} (hp : s.paused = true) (c : Nat) (vid : VId)
    (reason : String) (now : Nat) :
    isOkE (submitAppeal s c vid reason now) = false := by
  unfold submitAppeal
  repeat (split; next => rfl)
  rfl

theorem resolveAppeal_paused {s : State} (hp : s.paused = true) (c : Nat) (vid : VId)
    (approve : Bool) (res : String) :
    isOkE (resolveAppeal s c vid approve res) = false := by
  unfold resolveAppeal
  repeat (split; next => rfl)
  rfl

theorem claimRefund_paused {s : State} (hp : s.paused = true) (c : Nat) :
    isOkE (claimRefund s c) = false := by
  unfold claimRefund
  repeat (split; next => rfl)
  rfl

theorem updateOffense_ignores_pause {s : State} {c : Nat}
    (hrole : s.roles Role.Admin c = true) (code kes : Nat) (nm : String) (act : Bool) :
    isOkE (updateOffense s c code kes nm act) = true := by
  unfold updateOffense
  rw [hrole]
  rw [if_neg (by decide)]
  rfl

theorem withdrawFunds_ignores_pause {s : State} {c recip amt : Nat}
    (hrole : s.roles Role.Treasury c = true) (hamt : amt ≤ s.balance)
    (hrecip : recip ≠ 0) :
    isOkE (withdrawFunds s c recip amt) = true := by
  unfold withdrawFunds
  rw [hrole]
  rw [if_neg (by decide)]
  rw [if_neg (by omega)]
  rw [if_neg hrecip]
  rfl

theorem getViolation_ignores_pause (s : State) (vid : VId) :
    getViolation { s with paused := true } vid = getViolation s vid := rfl

/-- Claim C2 counterexample: in the concrete paused state (admin paused the
fresh contract), the mutating entry point updateOffense still succeeds and
changes the offense catalog, so the paused flag does not reject every
mutating entry point other than unpause. -/
theorem pause_totality_cex :
    demoPaused.paused = true ∧
    isOkE (updateOffense demoPaused 1 2 999 "amended offense" true) = true ∧
    ((run demoPaused [Op.updateOffense 1 2 999 "amended offense" true]).offenses 2).fineAmountKES
      = 999 :=
  ⟨by decide, by decide, by decide⟩

/-- Claim C2 (amended): while the paused flag is set, the mutating entry
points registerOfficer, deactivateOfficer, logViolation, payFine,
submitAppeal, resolveAppeal and claimRefund all fail (and so leave state
unchanged), but updateOffense and withdrawFunds carry no pause gate — they
succeed for authorized callers with valid arguments even while paused —
and read-only access is unaffected by the flag. -/
theorem paused_blocks_core_mutators (s : State) (hp : s.paused = true) :
    (∀ c oid nm badge now, isOkE (registerOfficer s c oid nm badge now) = false) ∧
    (∀ c oid, isOkE (deactivateOfficer s c oid) = false) ∧
    (∀ c veh code ev drv now, isOkE (logViolation s c veh code ev drv now) = false) ∧
    (∀ c vid value, isOkE (payFine s c vid value) = false) ∧
    (∀ c vid reason now, isOkE (submitAppeal s c vid reason now) = false) ∧
    (∀ c vid approve res, isOkE (resolveAppeal s c vid approve res) = false) ∧
    (∀ c, isOkE (claimRefund s c) = false) ∧
    (∀ c code kes nm act, s.roles Role.Admin c = true →
      isOkE (updateOffense s c code kes nm act) = true) ∧
    (∀ c recip amt, s.roles Role.Treasury c = true → amt ≤ s.balance → recip ≠ 0 →
      isOkE (withdrawFunds s c recip amt) = true) ∧
    (∀ vid, getViolation { s with paused := true } vid = getViolation s vid) := by
  refine ⟨?_, ?_, ?_, ?_, ?_, ?_, ?_, ?_, ?_, ?_⟩
  · intro c oid nm badge now
    exact registerOfficer_paused hp c oid nm badge now
  · intro c oid
    exact deactivateOfficer_paused hp c oid
  · intro c veh code ev drv now
    exact logViolation_paused hp c veh code ev drv now
  · intro c vid value
    exact payFine_paused hp c vid value
  · intro c vid reason now
    exact submitAppeal_paused hp c vid reason now
  · intro c vid approve res
    exact resolveAppeal_paused hp c vid approve res
  · intro c
    exact claimRefund_paused hp c
  · intro c code kes nm act hrole
    exact updateOffense_ignores_pause hrole code kes nm act
  · intro c recip amt hrole hamt hrecip
    exact withdrawFunds_ignores_pause hrole hamt hrecip
  · intro vid
    exact getViolation_ignores_pause s vid

/-- Witness for the amended pause claim at the concrete paused state. -/
theorem paused_blocks_core_mutators_witness :
    demoPaused.paused = true ∧
    isOkE (logViolation demoPaused 2 "KAA1" 4 "Qm1" 3 864000) = false ∧
    isOkE (payFine demoPaused 3 demoV (10 ^ 19)) = false ∧
    isOkE (updateOffense demoPaused 1 2 999 "amended offense" true) = true := by
  have h := paused_blocks_core_mutators demoPaused (by decide)
  exact ⟨by decide, h.2.2.1 2 "KAA1" 4 "Qm1" 3 864000,
    h.2.2.2.1 3 demoV (10 ^ 19),
    h.2.2.2.2.2.2.2.1 1 2 999 "amended offense" true (by decide)⟩


-- ============================================================================
-- Rejected violations cannot be paid
-- ============================================================================

/-- Claim C3 counterexample: in the concrete run where the unpaid demo
violation was appealed and the appeal rejected (approve=false, paidAmount
zero), the violation has status Rejected, and a payFine call covering the
full fine amount fails with InvalidState instead of succeeding as the
claim states. -/
theorem rejected_then_pay_cex :
    (demoRejected.violations demoV).status = ViolationStatus.Rejected ∧
    (demoRejected.violations demoV).paidAmount = 0 ∧
    (10 ^ 19 : Nat) = (demoRejected.violations demoV).fineAmount ∧
    errE (payFine demoRejected 3 demoV (10 ^ 19)) = some Err.InvalidState :=
  ⟨by decide, by decide, by decide, by decide⟩

/-- Claim C3 (amended): after resolveAppeal with approve=false on a
violation whose paidAmount is zero sets the status to Rejected, a
subsequent payFine on that violation is NOT possible: payFine requires
status Unpaid, so on a Rejected violation it fails with InvalidState for
every caller and every payment amount. -/
theorem payFine_rejected_fails (s : State) (c : Nat) (vid : VId) (value : Nat)
    (hex : 0 < (s.violations vid).timestamp) (hp : s.paused = false)
    (hst : (s.violations vid).status = ViolationStatus.Rejected) :
    payFine s c vid value = .error .InvalidState := by
  unfold payFine
  rw [if_neg (by omega)]
  rw [hp]
  rw [if_neg (show ¬(false = true) by decide)]
  rw [if_pos (show ¬((s.violations vid).status = ViolationStatus.Unpaid) by
    rw [hst]; decide)]

/-- Witness: the amended C3 statement at the concrete Rejected state. -/
theorem payFine_rejected_fails_witness :
    0 < (demoRejected.violations demoV).timestamp ∧
    demoRejected.paused = false ∧
    (demoRejected.violations demoV).status = ViolationStatus.Rejected ∧
    payFine demoRejected 3 demoV (10 ^ 19) = .error .InvalidState :=
  ⟨by decide, by decide, by decide,
    payFine_rejected_fails demoRejected 3 demoV (10 ^ 19) (by decide) (by decide)
      (by decide)⟩

-- ============================================================================
-- resolveAppeal branch behaviour
-- ============================================================================

theorem resolveAppeal_succeeds (s : State) (c : Nat) (vid : VId) (approve : Bool)
    (res : String)
    (hrole : s.roles Role.Judge c = true) (hex : 0 < (s.violations vid).timestamp)
    (hp : s.paused = false) (hst : (s.violations vid).status = ViolationStatus.Appealed)
    (hres : (s.appeals vid).resolved = false) :
    isOkE (resolveAppeal s c vid approve res) = true := by
  unfold resolveAppeal
  simp [hrole, hp, hst, hres, Nat.pos_iff_ne_zero.mp hex, isOkE]

/-- Claim C4: for a violation in status Appealed with an unresolved appeal,
a Judge-capable caller's resolveAppeal succeeds, marks the appeal resolved
with the given verdict, resolution text and resolving principal, and sets
the violation status to Refunded / Waived / Paid / Rejected exactly by the
(approve, paidAmount>0) branch table; in the Refunded branch the original
payer's pending-refund balance and the total-fines-refunded counter each
grow by paidAmount. -/
theorem resolveAppeal_branch_spec (s : State) (c : Nat) (vid : VId) (approve : Bool)
    (res : String)
    (hrole : s.roles Role.Judge c = true) (hex : 0 < (s.violations vid).timestamp)
    (hp : s.paused = false) (hst : (s.violations vid).status = ViolationStatus.Appealed)
    (hres : (s.appeals vid).resolved = false) :
    isOkE (resolveAppeal s c vid approve res) = true ∧
    (run s [Op.resolveAppeal c vid approve res]).appeals vid =
      { s.appeals vid with
        resolved := true,
        approved := approve,
        resolution := res,
        resolvedBy := c } ∧
    ((run s [Op.resolveAppeal c vid approve res]).violations vid).status =
      (if approve then
        (if 0 < (s.violations vid).paidAmount then ViolationStatus.Refunded
         else ViolationStatus.Waived)
       else
        (if 0 < (s.violations vid).paidAmount then ViolationStatus.Paid
         else ViolationStatus.Rejected)) ∧
    (approve = true → 0 < (s.violations vid).paidAmount →
      (run s [Op.resolveAppeal c vid approve res]).pendingRefunds
          ((s.violations vid).paidBy) =
        s.pendingRefunds ((s.violations vid).paidBy) + (s.violations vid).paidAmount ∧
      (run s [Op.resolveAppeal c vid approve res]).totalFinesRefunded =
        s.totalFinesRefunded + (s.violations vid).paidAmount) := by
  have hok := resolveAppeal_succeeds s c vid approve res hrole hex hp hst hres
  cases hstep : resolveAppeal s c vid approve res with
  | error e =>
    rw [hstep] at hok
    simp [isOkE] at hok
  | ok s2 =>
    have hrun : run s [Op.resolveAppeal c vid approve res] = s2 := by
      rw [run_singleton]
      exact afterOp_ok hstep
    have hfacts := resolveAppeal_ok hstep
    rw [hrun]
    refine ⟨rfl, hfacts.2.2.2.2.1, hfacts.2.2.2.2.2.2.1, ?_⟩
    intro ha hpa
    refine ⟨hfacts.2.2.2.2.2.2.2.2 ha hpa, ?_⟩
    rw [hfacts.2.2.2.2.2.2.2.1]
    simp [ha, hpa]

/-- Witness: the Refunded branch of the C4 statement at the concrete
appealed-and-paid state. -/
theorem resolveAppeal_branch_witness :
    isOkE (resolveAppeal demoS4 1 demoV true "granted") = true ∧
    ((run demoS4 [Op.resolveAppeal 1 demoV true "granted"]).violations demoV).status
      = ViolationStatus.Refunded ∧
    (run demoS4 [Op.resolveAppeal 1 demoV true "granted"]).pendingRefunds 3 = 10 ^ 19 := by
  have h := resolveAppeal_branch_spec demoS4 1 demoV true "granted"
    (by decide) (by decide) (by decide) (by decide) (by decide)
  refine ⟨h.1, ?_, ?_⟩
  · rw [h.2.2.1]
    decide
  · have h4 := (h.2.2.2 rfl (by decide)).1
    have e1 : (demoS4.violations demoV).paidBy = 3 := by decide
    have e2 : (demoS4.violations demoV).paidAmount = 10 ^ 19 := by decide
    have e3 : demoS4.pendingRefunds 3 = 0 := by decide
    rw [e1, e2, e3] at h4
    simpa using h4

-- ============================================================================
-- claimRefund semantics
-- ============================================================================

theorem claimRefund_zero_invalid (s : State) (c : Nat) (hp : s.paused = false)
    (hz : s.pendingRefunds c = 0) :
    claimRefund s c = .error .InvalidInput := by
  unfold claimRefund
  rw [hp]
  rw [if_neg (show ¬(false = true) by decide)]
  rw [if_pos hz]

/-- Claim C6: claimRefund fails when the caller's pending balance is not
strictly positive (with InvalidInput when not paused); with a positive
balance covered by the contract's funds it succeeds, the balance is read
and zeroed within the same atomic operation, the claimed amount is paid
out exactly once (the contract balance drops by exactly that amount), and
an immediately repeated claimRefund by the same caller fails with
InvalidInput. -/
theorem claimRefund_spec (s : State) (c : Nat) :
    (s.pendingRefunds c = 0 → isOkE (claimRefund s c) = false) ∧
    (s.paused = false → s.pendingRefunds c = 0 →
      claimRefund s c = .error .InvalidInput) ∧
    (s.paused = false → 0 < s.pendingRefunds c → s.pendingRefunds c ≤ s.balance →
      isOkE (claimRefund s c) = true ∧
      (run s [Op.claimRefund c]).pendingRefunds c = 0 ∧
      (run s [Op.claimRefund c]).balance = s.balance - s.pendingRefunds c ∧
      claimRefund (run s [Op.claimRefund c]) c = .error .InvalidInput) := by
  refine ⟨?_, ?_, ?_⟩
  · intro hz
    unfold claimRefund
    repeat (split; next => rfl)
    rfl
  · intro hp hz
    exact claimRefund_zero_invalid s c hp hz
  · intro hp hpos hbal
    have hz2 : ¬(s.pendingRefunds c = 0) := by omega
    have hb2 : ¬(s.balance < s.pendingRefunds c) := by omega
    have hok : isOkE (claimRefund s c) = true := by
      unfold claimRefund
      simp [hp, hz2, hb2, isOkE]
    cases hstep : claimRefund s c with
    | error e =>
      rw [hstep] at hok
      simp [isOkE] at hok
    | ok s2 =>
      have hrun : run s [Op.claimRefund c] = s2 := by
        rw [run_singleton]
        exact afterOp_ok hstep
      have hfacts := claimRefund_ok hstep
      rw [hrun]
      refine ⟨rfl, hfacts.2.2.2.2.1, hfacts.2.2.2.2.2.1, ?_⟩
      refine claimRefund_zero_invalid s2 c ?_ hfacts.2.2.2.2.1
      rw [hfacts.2.2.2.2.2.2]
      exact hp

/-- Witness: the C6 statement at the concrete refunded state, where driver
3 holds a 10^19 pending refund fully covered by the contract balance. -/
theorem claimRefund_spec_witness :
    demoS5.paused = false ∧
    0 < demoS5.pendingRefunds 3 ∧
    demoS5.pendingRefunds 3 ≤ demoS5.balance ∧
    isOkE (claimRefund demoS5 3) = true ∧
    (run demoS5 [Op.claimRefund 3]).pendingRefunds 3 = 0 ∧
    (run demoS5 [Op.claimRefund 3]).balance = 0 ∧
    claimRefund (run demoS5 [Op.claimRefund 3]) 3 = .error .InvalidInput := by
  have h := (claimRefund_spec demoS5 3).2.2 (by decide) (by decide) (by decide)
  refine ⟨by decide, by decide, by decide, h.1, h.2.1, ?_, h.2.2.2⟩
  rw [h.2.2.1]
  decide

-- ============================================================================
-- logViolation: identifier derivation, no collision check, exact fine
-- ============================================================================

/-- Claim C8 counterexample: demoS2 already stores a violation whose
identifier derives from (KAA1, officer 2, time 864000, offense 4); a
second logViolation call with those same inputs derives the same
identifier and yet succeeds, overwriting the stored record (the evidence
reference changes and the record is reset to Unpaid) and incrementing
totalViolations, instead of rejecting the collision without mutating. -/
theorem collision_overwrite_cex :
    0 < (demoS2.violations demoV).timestamp ∧
    (demoS2.violations demoV).evidenceHash = "Qm1" ∧
    isOkE (logViolation demoS2 2 "KAA1" 4 "Qm2" 3 864000) = true ∧
    ((run demoS2 [Op.logViolation 2 "KAA1" 4 "Qm2" 3 864000]).violations
        demoV).evidenceHash = "Qm2" ∧
    (run demoS2 [Op.logViolation 2 "KAA1" 4 "Qm2" 3 864000]).totalViolations = 2 :=
  ⟨by decide, by decide, by decide, by decide, by decide⟩

/-- Claim C8 (amended): logViolation derives the violation identifier
deterministically from (vehicle id, issuing officer, issuance time,
offense code), but performs no collision check: every successful call
writes a fresh Unpaid record at that identifier — overwriting any
violation already stored there — appends the identifier to the vehicle
index and increments totalViolations, whether or not the identifier
already named an existing violation. -/
theorem logViolation_overwrites_on_collision (s : State) (c : Nat) (veh : String)
    (code : Nat) (ev : String) (drv now : Nat)
    (hok : isOkE (logViolation s c veh code ev drv now) = true) :
    (run s [Op.logViolation c veh code ev drv now]).violations
        (violationIdOf veh c now code) =
      ⟨violationIdOf veh c now code, veh, c, code, ev, now,
        (s.offenses code).fineAmountKES * KES_TO_WEI_RATE,
        ViolationStatus.Unpaid, drv, 0, 0⟩ ∧
    (run s [Op.logViolation c veh code ev drv now]).totalViolations =
      s.totalViolations + 1 ∧
    (run s [Op.logViolation c veh code ev drv now]).vehicleViolations veh =
      s.vehicleViolations veh ++ [violationIdOf veh c now code] := by
  cases hstep : logViolation s c veh code ev drv now with
  | error e =>
    rw [hstep] at hok
    simp [isOkE] at hok
  | ok s2 =>
    have hrun : run s [Op.logViolation c veh code ev drv now] = s2 := by
      rw [run_singleton]
      exact afterOp_ok hstep
    have hfacts := logViolation_ok hstep
    rw [hrun]
    exact ⟨hfacts.2.2.2.2.1, hfacts.2.2.2.2.2.1, hfacts.2.2.2.2.2.2⟩

/-- Witness: the amended C8 statement at the colliding call on demoS2. -/
theorem logViolation_overwrites_witness :
    isOkE (logViolation demoS2 2 "KAA1" 4 "Qm2" 3 864000) = true ∧
    (run demoS2 [Op.logViolation 2 "KAA1" 4 "Qm2" 3 864000]).violations
        (violationIdOf "KAA1" 2 864000 4) =
      ⟨violationIdOf "KAA1" 2 864000 4, "KAA1", 2, 4, "Qm2", 864000,
        10000 * KES_TO_WEI_RATE, ViolationStatus.Unpaid, 3, 0, 0⟩ := by
  have h := logViolation_overwrites_on_collision demoS2 2 "KAA1" 4 "Qm2" 3 864000
    (by decide)
  refine ⟨by decide, ?_⟩
  rw [h.1]
  decide

/-- Claim C9: every successful logViolation stores a fine amount equal to
the referenced offense's catalog amount in KES multiplied by the fixed
constant KES_TO_WEI_RATE = 10^15, as an exact integer product. -/
theorem fine_amount_exact (s : State) (c : Nat) (veh : String) (code : Nat)
    (ev : String) (drv now : Nat)
    (hok : isOkE (logViolation s c veh code ev drv now) = true) :
    ((run s [Op.logViolation c veh code ev drv now]).violations
        (violationIdOf veh c now code)).fineAmount =
      (s.offenses code).fineAmountKES * KES_TO_WEI_RATE := by
  cases hstep : logViolation s c veh code ev drv now with
  | error e =>
    rw [hstep] at hok
    simp [isOkE] at hok
  | ok s2 =>
    have hrun : run s [Op.logViolation c veh code ev drv now] = s2 := by
      rw [run_singleton]
      exact afterOp_ok hstep
    rw [hrun, (logViolation_ok hstep).2.2.2.2.1]

/-- Witness: the C9 statement at the demo issuance — offense 4 carries a
10000 KES catalog amount, and the stored fine is exactly 10000 * 10^15. -/
theorem fine_amount_exact_witness :
    isOkE (logViolation demoS1 2 "KAA1" 4 "Qm1" 3 864000) = true ∧
    ((run demoS1 [Op.logViolation 2 "KAA1" 4 "Qm1" 3 864000]).violations
        (violationIdOf "KAA1" 2 864000 4)).fineAmount = 10000 * KES_TO_WEI_RATE := by
  have h := fine_amount_exact demoS1 2 "KAA1" 4 "Qm1" 3 864000 (by decide)
  refine ⟨by decide, ?_⟩
  rw [h]
  decide

-- ============================================================================
-- payFine imposes no payer restriction
-- ============================================================================

theorem payFine_succeeds (s : State) (c : Nat) (vid : VId) (value : Nat)
    (hex : 0 < (s.violations vid).timestamp) (hp : s.paused = false)
    (hst : (s.violations vid).status = ViolationStatus.Unpaid)
    (hval : (s.violations vid).fineAmount ≤ value) :
    isOkE (payFine s c vid value) = true := by
  unfold payFine
  simp [hp, hst, Nat.pos_iff_ne_zero.mp hex, Nat.not_lt.mpr hval, isOkE]

/-- Claim C10: payFine places no restriction on the caller: any principal
paying at least the fine amount of an existing Unpaid violation succeeds
(regardless of the responsible party), is recorded as paidBy, and a later
approved appeal credits the pending refund to that recorded payer. -/
theorem payFine_unrestricted_payer :
    (∀ (s : State) (c : Nat) (vid : VId) (value : Nat),
      0 < (s.violations vid).timestamp → s.paused = false →
      (s.violations vid).status = ViolationStatus.Unpaid →
      (s.violations vid).fineAmount ≤ value →
      isOkE (payFine s c vid value) = true ∧
      ((run s [Op.payFine c vid value]).violations vid).status = ViolationStatus.Paid ∧
      ((run s [Op.payFine c vid value]).violations vid).paidAmount =
        (s.violations vid).fineAmount ∧
      ((run s [Op.payFine c vid value]).violations vid).paidBy = c) ∧
    (∀ (s : State) (j : Nat) (vid : VId) (res : String),
      s.roles Role.Judge j = true → 0 < (s.violations vid).timestamp →
      s.paused = false → (s.violations vid).status = ViolationStatus.Appealed →
      (s.appeals vid).resolved = false → 0 < (s.violations vid).paidAmount →
      (run s [Op.resolveAppeal j vid true res]).pendingRefunds
          ((s.violations vid).paidBy) =
        s.pendingRefunds ((s.violations vid).paidBy) + (s.violations vid).paidAmount) := by
  constructor
  · intro s c vid value hex hp hst hval
    have hok := payFine_succeeds s c vid value hex hp hst hval
    cases hstep : payFine s c vid value with
    | error e =>
      rw [hstep] at hok
      simp [isOkE] at hok
    | ok s2 =>
      have hrun : run s [Op.payFine c vid value] = s2 := by
        rw [run_singleton]
        exact afterOp_ok hstep
      have hfacts := payFine_ok hstep
      rw [hrun]
      exact ⟨rfl, hfacts.2.2.2.2.1, hfacts.2.2.2.2.2.1, hfacts.2.2.2.2.2.2.1⟩
  · intro s j vid res hrole hex hp hst hres hpa
    have hok := resolveAppeal_succeeds s j vid true res hrole hex hp hst hres
    cases hstep : resolveAppeal s j vid true res with
    | error e =>
      rw [hstep] at hok
      simp [isOkE] at hok
    | ok s2 =>
      have hrun : run s [Op.resolveAppeal j vid true res] = s2 := by
        rw [run_singleton]
        exact afterOp_ok hstep
      rw [hrun]
      exact (resolveAppeal_ok hstep).2.2.2.2.2.2.2.2 rfl hpa

/-- Witness: outsider 7 (not driver 3) pays the demo fine and is recorded
as the payer; after the driver's appeal is approved, the refund credit
goes to principal 7. -/
theorem payFine_unrestricted_payer_witness :
    (demoS2.violations demoV).driverId = 3 ∧
    isOkE (payFine demoS2 7 demoV (10 ^ 19)) = true ∧
    ((run demoS2 [Op.payFine 7 demoV (10 ^ 19)]).violations demoV).paidBy = 7 ∧
    (run demoT4 [Op.resolveAppeal 1 demoV true "granted"]).pendingRefunds 7 = 10 ^ 19 := by
  have h1 := payFine_unrestricted_payer.1 demoS2 7 demoV (10 ^ 19)
    (by decide) (by decide) (by decide) (by decide)
  have h2 := payFine_unrestricted_payer.2 demoT4 1 demoV "granted"
    (by decide) (by decide) (by decide) (by decide) (by decide) (by decide)
  have e1 : (demoT4.violations demoV).paidBy = 7 := by decide
  have e2 : (demoT4.violations demoV).paidAmount = 10 ^ 19 := by decide
  have e3 : demoT4.pendingRefunds 7 = 0 := by decide
  rw [e1, e2, e3] at h2
  refine ⟨by decide, h1.1, h1.2.2.2, ?_⟩
  rw [h2]
  simp

-- ============================================================================
-- Invariant I2: positive paidAmount only with status Paid/Appealed/Refunded
-- ============================================================================

theorem step_PaidStatusInv {s : State} {op : Op} {s2 : State}
    (h : step s op = .ok s2) (hI : PaidStatusInv s) : PaidStatusInv s2 := by
  cases op
  case registerOfficer c oid nm badge now =>
    intro v hv
    rw [(registerOfficer_ok h).1] at hv ⊢
    exact hI v hv
  case deactivateOfficer c oid =>
    intro v hv
    rw [(deactivateOfficer_ok h).1] at hv ⊢
    exact hI v hv
  case logViolation c veh code ev drv now =>
    have hf := logViolation_ok h
    intro v hv
    by_cases hw : v = violationIdOf veh c now code
    · subst hw
      rw [hf.2.2.2.2.1] at hv
      simp at hv
    · rw [hf.2.2.2.1 v hw] at hv ⊢
      exact hI v hv
  case payFine c vid value =>
    have hf := payFine_ok h
    intro v hv
    by_cases hw : v = vid
    · subst hw
      exact Or.inl hf.2.2.2.2.1
    · rw [hf.2.2.2.1 v hw] at hv ⊢
      exact hI v hv
  case submitAppeal c vid reason now =>
    have hf := submitAppeal_ok h
    intro v hv
    by_cases hw : v = vid
    · subst hw
      exact Or.inr (Or.inl hf.2.2.2.2.1)
    · rw [(hf.2.2.2.1 v hw).1] at hv ⊢
      exact hI v hv
  case resolveAppeal c vid approve res =>
    have hf := resolveAppeal_ok h
    intro v hv
    by_cases hw : v = vid
    · subst hw
      rw [hf.2.2.2.2.2.1] at hv
      rw [hf.2.2.2.2.2.2.1]
      cases approve <;> simp [hv]
    · rw [(hf.2.2.2.1 v hw).1] at hv ⊢
      exact hI v hv
  case claimRefund c =>
    intro v hv
    rw [(claimRefund_ok h).1] at hv ⊢
    exact hI v hv
  case updateOffense c code kes nm act =>
    intro v hv
    rw [(updateOffense_ok h).1] at hv ⊢
    exact hI v hv
  case withdrawFunds c recip amt =>
    intro v hv
    rw [(withdrawFunds_ok h).1] at hv ⊢
    exact hI v hv
  case pause c =>
    intro v hv
    rw [(pauseOp_ok h).1] at hv ⊢
    exact hI v hv
  case unpause c =>
    intro v hv
    rw [(unpauseOp_ok h).1] at hv ⊢
    exact hI v hv
  case grantRole c r p =>
    intro v hv
    rw [(grantRoleOp_ok h).1] at hv ⊢
    exact hI v hv
  case revokeRole c r p =>
    intro v hv
    rw [(revokeRoleOp_ok h).1] at hv ⊢
    exact hI v hv
  case deposit amt =>
    intro v hv
    rw [(depositOp_ok h).1] at hv ⊢
    exact hI v hv

theorem afterOp_PaidStatusInv (s : State) (op : Op) (hI : PaidStatusInv s) :
    PaidStatusInv (afterOp s op) := by
  cases h : step s op with
  | ok s2 =>
    rw [afterOp_ok h]
    exact step_PaidStatusInv h hI
  | error e =>
    rw [afterOp_err h]
    exact hI

theorem run_PaidStatusInv (s : State) (ops : List Op) (hI : PaidStatusInv s) :
    PaidStatusInv (run s ops) := by
  induction ops generalizing s with
  | nil => exact hI
  | cons op ops ih =>
    rw [run_cons]
    exact ih _ (afterOp_PaidStatusInv s op hI)

theorem initial_PaidStatusInv : PaidStatusInv initialState := by
  intro v hv
  simp [initialState, emptyViolation] at hv

/-- Claim C7: at every point reachable from the initial state by any
sequence of operations, a violation with positive paidAmount has status
Paid, Appealed or Refunded — never Waived, Rejected or Unpaid. -/
theorem paid_status_invariant (ops : List Op) (v : VId)
    (hv : 0 < ((run initialState ops).violations v).paidAmount) :
    ((run initialState ops).violations v).status = ViolationStatus.Paid ∨
    ((run initialState ops).violations v).status = ViolationStatus.Appealed ∨
    ((run initialState ops).violations v).status = ViolationStatus.Refunded :=
  run_PaidStatusInv initialState ops initial_PaidStatusInv v hv

/-- Witness: the I2 invariant at the concrete paid state. -/
theorem paid_status_invariant_witness :
    0 < ((run initialState [demoRegister, demoLog, demoPay]).violations
        demoV).paidAmount ∧
    (((run initialState [demoRegister, demoLog, demoPay]).violations demoV).status
        = ViolationStatus.Paid ∨
     ((run initialState [demoRegister, demoLog, demoPay]).violations demoV).status
        = ViolationStatus.Appealed ∨
     ((run initialState [demoRegister, demoLog, demoPay]).violations demoV).status
        = ViolationStatus.Refunded) :=
  ⟨by decide, paid_status_invariant [demoRegister, demoLog, demoPay] demoV (by decide)⟩

-- ============================================================================
-- Invariant I3: refund queue credited at most once per violation
-- ============================================================================

theorem credit_char {s : State} {op : Op} {v : VId}
    (hc : isCreditB s op v = true) :
    ∃ c approve res s2, op = Op.resolveAppeal c v approve res ∧
      resolveAppeal s c v approve res = .ok s2 ∧
      afterOp s op = s2 ∧
      (s.appeals v).resolved = false ∧
      ((afterOp s op).appeals v).resolved = true ∧
      0 < (s.violations v).paidAmount := by
  unfold isCreditB at hc
  simp only [Bool.and_eq_true, decide_eq_true_eq] at hc
  obtain ⟨⟨hok, htgt⟩, hne⟩ := hc
  cases op <;> simp [targetsResolve] at htgt
  case resolveAppeal c vid approve res =>
    subst htgt
    have hok2 : isOkE (resolveAppeal s c vid approve res) = true := hok
    cases hstep : resolveAppeal s c vid approve res with
    | error e =>
      rw [hstep] at hok2
      simp [isOkE] at hok2
    | ok s2 =>
      have hao : afterOp s (Op.resolveAppeal c vid approve res) = s2 :=
        afterOp_ok hstep
      have hf := resolveAppeal_ok hstep
      refine ⟨c, approve, res, s2, rfl, hstep, hao, hf.2.1, ?_, ?_⟩
      · rw [hao, hf.2.2.2.2.1]
      · rw [hao] at hne
        rw [hf.2.2.2.2.2.2.2.1] at hne
        by_contra hpa
        rw [if_neg (fun hand => hpa hand.2)] at hne
        exact hne rfl

theorem step_resolved_persist {s : State} {op : Op} {s2 : State} {v : VId}
    (h : step s op = .ok s2) (hr : (s.appeals v).resolved = true) :
    (s2.appeals v).resolved = true := by
  cases op
  case registerOfficer c oid nm badge now =>
    rw [(registerOfficer_ok h).2.1]; exact hr
  case deactivateOfficer c oid =>
    rw [(deactivateOfficer_ok h).2.1]; exact hr
  case logViolation c veh code ev drv now =>
    rw [(logViolation_ok h).1]; exact hr
  case payFine c vid value =>
    rw [(payFine_ok h).1]; exact hr
  case submitAppeal c vid reason now =>
    have hf := submitAppeal_ok h
    by_cases hw : v = vid
    · subst hw
      rw [hf.1] at hr
      exact absurd hr (by decide)
    · rw [(hf.2.2.2.1 v hw).2]; exact hr
  case resolveAppeal c vid approve res =>
    have hf := resolveAppeal_ok h
    by_cases hw : v = vid
    · subst hw
      rw [hf.2.2.2.2.1]
    · rw [(hf.2.2.2.1 v hw).2]; exact hr
  case claimRefund c =>
    rw [(claimRefund_ok h).2.1]; exact hr
  case updateOffense c code kes nm act =>
    rw [(updateOffense_ok h).2.1]; exact hr
  case withdrawFunds c recip amt =>
    rw [(withdrawFunds_ok h).2.1]; exact hr
  case pause c =>
    rw [(pauseOp_ok h).2.1]; exact hr
  case unpause c =>
    rw [(unpauseOp_ok h).2.1]; exact hr
  case grantRole c r p =>
    rw [(grantRoleOp_ok h).2.1]; exact hr
  case revokeRole c r p =>
    rw [(revokeRoleOp_ok h).2.1]; exact hr
  case deposit amt =>
    rw [(depositOp_ok h).2.1]; exact hr

theorem afterOp_resolved_persist (s : State) (op : Op) {v : VId}
    (hr : (s.appeals v).resolved = true) :
    ((afterOp s op).appeals v).resolved = true := by
  cases h : step s op with
  | ok s2 =>
    rw [afterOp_ok h]
    exact step_resolved_persist h hr
  | error e =>
    rw [afterOp_err h]
    exact hr

theorem creditsTo_zero_of_resolved {v : VId} {s : State} {ops : List Op}
    (hr : (s.appeals v).resolved = true) : creditsTo v s ops = 0 := by
  induction ops generalizing s with
  | nil => rfl
  | cons op ops ih =>
    have hnc : isCreditB s op v = false := by
      by_contra hq
      rw [Bool.not_eq_false] at hq
      obtain ⟨c, approve, res, s2, hop, hstep, hao, hres, _, _⟩ := credit_char hq
      rw [hres] at hr
      exact absurd hr (by decide)
    simp only [creditsTo, hnc, if_false, Bool.false_eq_true, zero_add]
    exact ih (afterOp_resolved_persist s op hr)

theorem creditsTo_le_one (v : VId) (s : State) (ops : List Op) :
    creditsTo v s ops ≤ 1 := by
  induction ops generalizing s with
  | nil => simp [creditsTo]
  | cons op ops ih =>
    cases hq : isCreditB s op v with
    | true =>
      obtain ⟨c, approve, res, s2, hop, hstep, hao, hres, hres2, hpa⟩ := credit_char hq
      have hz : creditsTo v (afterOp s op) ops = 0 := creditsTo_zero_of_resolved hres2
      simp [creditsTo, hq, hz]
    | false =>
      simp only [creditsTo, hq, if_false, Bool.false_eq_true, zero_add]
      exact ih _

/-- Claim C5: along any operation sequence from the initial state, the
pending-refund queue is credited at most once on behalf of any given
violation, and a credit only happens when that violation's paidAmount is
positive at the moment of crediting. -/
theorem refund_credit_at_most_once :
    (∀ ops v, creditsTo v initialState ops ≤ 1) ∧
    (∀ s op v, isCreditB s op v = true → 0 < (s.violations v).paidAmount) := by
  constructor
  · intro ops v
    exact creditsTo_le_one v initialState ops
  · intro s op v hc
    obtain ⟨c, approve, res, s2, hop, hstep, hao, hres, hres2, hpa⟩ := credit_char hc
    exact hpa

/-- Witness: the concrete refund-approval run credits the queue exactly at
the resolve step, where paidAmount is positive, and the whole run credits
the demo violation at most once. -/
theorem refund_credit_at_most_once_witness :
    isCreditB demoS4 demoResolve demoV = true ∧
    0 < (demoS4.violations demoV).paidAmount ∧
    creditsTo demoV initialState
      [demoRegister, demoLog, demoPay, demoAppeal, demoResolve] ≤ 1 :=
  ⟨by decide,
    refund_credit_at_most_once.2 demoS4 demoResolve demoV (by decide),
    refund_credit_at_most_once.1 [demoRegister, demoLog, demoPay, demoAppeal, demoResolve]
      demoV⟩
